import Mathlib

/-!
Shallow embedding of the GLPong game logic (src/main.cpp).

Floating-point values of the source are modelled as rationals (ℚ); the
C library's `rand()` stream is modelled by passing the raw random value
explicitly as a natural number.  Each mutating C++ member function
becomes a pure function from state to state, and `Ball::update` is
decomposed into the source's sequential blocks (move, left-bound
scoring, right-bound scoring, wall bounce, paddle collisions), composed
in the source's order.
-/

namespace GLPong

/-- Screen width constant (`SCREEN_WIDTH`, main.cpp line 19). -/
def SCREEN_WIDTH : ℚ := 640

/-- Screen height constant (`SCREEN_HEIGHT`, main.cpp line 20). -/
def SCREEN_HEIGHT : ℚ := 480

/-- Ball edge length (`BALL_SIZE`, main.cpp line 22). -/
def BALL_SIZE : ℚ := 15

/-- Maximum ball speed in pixels per second (`MAX_BALL_SPEED`, main.cpp line 23). -/
def MAX_BALL_SPEED : ℚ := 200

/-- Paddle width (`PLAYER_WIDTH`, main.cpp line 25). -/
def PLAYER_WIDTH : ℚ := 15

/-- Paddle height (`PLAYER_HEIGHT`, main.cpp line 26). -/
def PLAYER_HEIGHT : ℚ := 100

/-- Paddle speed (`PLAYER_SPEED`, main.cpp line 27). -/
def PLAYER_SPEED : ℚ := 200

/-- Half the paddle height (`HALF_PLAYER_HEIGHT`, main.cpp line 29). -/
def HALF_PLAYER_HEIGHT : ℚ := PLAYER_HEIGHT / 2

/-- The C library's `fmin`. -/
def fmin (a b : ℚ) : ℚ := min a b

/-- The C library's `fmax`. -/
def fmax (a b : ℚ) : ℚ := max a b

/-- The C library's `fabs`. -/
def fabs (a : ℚ) : ℚ := |a|

/-- The C library's `copysignf`: the magnitude of the first argument with
the sign of the second (sign of zero taken as positive). -/
def copysignf (mag sgn : ℚ) : ℚ := if sgn < 0 then -|mag| else |mag|

/-- The helper `randomInteger(min, max)` (main.cpp lines 31-40): returns
`rand() % (max - min) + min`.  The raw `rand()` value (a non-negative
machine integer) is passed explicitly as `randVal`. -/
def randomInteger (mn mx : ℤ) (randVal : ℕ) : ℤ :=
  (randVal : ℤ) % (mx - mn) + mn

/-- A 2-D point (`Point`, main.cpp lines 108-116). -/
structure Point where
  x : ℚ
  y : ℚ
deriving DecidableEq

/-- An axis-aligned rectangle (`Rect`, main.cpp lines 118-171); `(x, y)`
is the top-left corner in screen coordinates. -/
structure Rect where
  x : ℚ
  y : ℚ
  width : ℚ
  height : ℚ
deriving DecidableEq

/-- Top-left corner from `Rect::cornerPoints` (main.cpp lines 128-140). -/
def Rect.topLeft (r : Rect) : Point := ⟨r.x, r.y⟩

/-- Top-right corner from `Rect::cornerPoints`. -/
def Rect.topRight (r : Rect) : Point := ⟨r.x + r.width, r.y⟩

/-- Bottom-left corner from `Rect::cornerPoints`. -/
def Rect.bottomLeft (r : Rect) : Point := ⟨r.x, r.y + r.height⟩

/-- Bottom-right corner from `Rect::cornerPoints`. -/
def Rect.bottomRight (r : Rect) : Point := ⟨r.x + r.width, r.y + r.height⟩

/-- Membership test `Rect::contains` (main.cpp lines 162-170): all four
comparisons are strict. -/
def Rect.contains (r : Rect) (p : Point) : Bool :=
  if p.x > r.x ∧ p.x < r.x + r.width then
    if p.y > r.y ∧ p.y < r.y + r.height then true else false
  else false

/-- Intersection test `Rect::intersects` (main.cpp lines 142-160): true
iff some corner of either rectangle is contained in the other. -/
def Rect.intersects (r other : Rect) : Bool :=
  if other.contains r.topLeft ∨ other.contains r.topRight ∨
     other.contains r.bottomLeft ∨ other.contains r.bottomRight then
    true
  else if r.contains other.topLeft ∨ r.contains other.topRight ∨
          r.contains other.bottomLeft ∨ r.contains other.bottomRight then
    true
  else
    false

/-- An RGB color (`Color`, main.cpp lines 173-176). -/
structure Color where
  r : ℚ
  g : ℚ
  b : ℚ
deriving DecidableEq

/-- Which side a paddle is on (`PlayerSide`, main.cpp lines 272-275). -/
inductive PlayerSide where
  | left
  | right
deriving DecidableEq

/-- A paddle (`Player`, main.cpp lines 277-329). -/
structure Player where
  side : PlayerSide
  score : ℤ
  coords : Rect
  verticalSpeed : ℚ
deriving DecidableEq

/-- The `Player` constructor (main.cpp lines 278-291).  `SCREEN_HEIGHT / 2`
is integer division of the two `int` constants (240), from which half the
paddle height is subtracted. -/
def Player.init (side : PlayerSide) : Player :=
  { side := side
    score := 0
    verticalSpeed := 0
    coords :=
      { x := match side with
             | .left => 10
             | .right => SCREEN_WIDTH - PLAYER_WIDTH - 10
        y := SCREEN_HEIGHT / 2 - PLAYER_HEIGHT / 2
        width := PLAYER_WIDTH
        height := PLAYER_HEIGHT } }

/-- Score accessor `Player::getScore`. -/
def Player.getScore (p : Player) : ℤ := p.score

/-- Score mutator `Player::incrementScore` (main.cpp lines 297-299). -/
def Player.incrementScore (p : Player) : Player :=
  { p with score := p.score + 1 }

/-- Speed mutator `Player::setVerticalSpeed` (main.cpp lines 305-307). -/
def Player.setVerticalSpeed (p : Player) (verticalSpeed : ℚ) : Player :=
  { p with verticalSpeed := verticalSpeed }

/-- The private helper `Player::moveVertical` (main.cpp lines 319-328):
add the distance to `y`, then clamp to the upper bound and then to 0. -/
def Player.moveVertical (p : Player) (distance : ℚ) : Player :=
  let y1 := p.coords.y + distance
  let y2 := if y1 > SCREEN_HEIGHT - PLAYER_HEIGHT then SCREEN_HEIGHT - PLAYER_HEIGHT else y1
  let y3 := if y2 < 0 then 0 else y2
  { p with coords := { p.coords with y := y3 } }

/-- Paddle update `Player::update` (main.cpp lines 301-303). -/
def Player.update (p : Player) (elapsed : ℚ) : Player :=
  p.moveVertical (p.verticalSpeed * elapsed)

/-- The ball's own state (`Ball`, main.cpp lines 333-459; the two player
references live in `GameState`). -/
structure Ball where
  x : ℚ
  y : ℚ
  xSpeed : ℚ
  ySpeed : ℚ
deriving DecidableEq

/-- Velocity chosen by the `switch (direction)` of `Ball::reset`
(main.cpp lines 389-420).  A direction outside 1..6 falls through and
keeps the previous speed, exactly like the C++ `switch` with no match. -/
def resetVelocity (direction : ℤ) (b : Ball) : ℚ × ℚ :=
  if direction = 1 then (MAX_BALL_SPEED, -MAX_BALL_SPEED)
  else if direction = 2 then (MAX_BALL_SPEED, 0)
  else if direction = 3 then (MAX_BALL_SPEED, MAX_BALL_SPEED)
  else if direction = 4 then (-MAX_BALL_SPEED, MAX_BALL_SPEED)
  else if direction = 5 then (-MAX_BALL_SPEED, 0)
  else if direction = 6 then (-MAX_BALL_SPEED, -MAX_BALL_SPEED)
  else (b.xSpeed, b.ySpeed)

/-- Respawn logic `Ball::reset` (main.cpp lines 383-421): center the ball
and pick a velocity from `randomInteger(1, 7)`. -/
def Ball.reset (randVal : ℕ) (b : Ball) : Ball :=
  let direction := randomInteger 1 7 randVal
  let v := resetVelocity direction b
  { x := SCREEN_WIDTH / 2 - BALL_SIZE / 2
    y := SCREEN_HEIGHT / 2 - BALL_SIZE / 2
    xSpeed := v.1
    ySpeed := v.2 }

/-- Normalized vertical offset between ball center and paddle center,
capped at 1 (`normalizedDistance` in `Ball::bounce`, main.cpp line 453). -/
def normalizedDistance (b : Ball) (player : Player) : ℚ :=
  let ballCenterY := b.y + BALL_SIZE / 2
  let playerCenterY := player.coords.y + HALF_PLAYER_HEIGHT
  fmin 1 (fabs (playerCenterY - ballCenterY) / HALF_PLAYER_HEIGHT)

/-- Horizontal speed scale of `Ball::bounce` (main.cpp line 454). -/
def speedScaleX (b : Ball) (player : Player) : ℚ :=
  fmax (1/2) (1 - normalizedDistance b player)

/-- Vertical speed scale of `Ball::bounce` (main.cpp line 455). -/
def speedScaleY (b : Ball) (player : Player) : ℚ :=
  fmax (1/2) (normalizedDistance b player)

/-- Paddle bounce transform `Ball::bounce` (main.cpp lines 450-458):
returns the pair (new x-speed, new y-speed) the function writes through
its two reference parameters. -/
def Ball.bounce (b : Ball) (player : Player) : ℚ × ℚ :=
  (fmin MAX_BALL_SPEED (MAX_BALL_SPEED * speedScaleX b player + MAX_BALL_SPEED / 2),
   copysignf (MAX_BALL_SPEED * speedScaleY b player) b.ySpeed)

/-- The mutable state touched by `Ball::update`: the ball singleton and
the two players it holds references to (main.cpp lines 440-441, 461-464). -/
structure GameState where
  ball : Ball
  leftPlayer : Player
  rightPlayer : Player
deriving DecidableEq

/-- Position advance at the top of `Ball::update` (main.cpp lines 340-341). -/
def ballMove (s : GameState) (elapsed : ℚ) : GameState :=
  { s with ball := { s.ball with
      x := s.ball.x + s.ball.xSpeed * elapsed
      y := s.ball.y + s.ball.ySpeed * elapsed } }

/-- The `if (_x < 0)` block of `Ball::update` (main.cpp lines 343-347):
right player scores and the ball resets. -/
def ballScoreLeftBound (s : GameState) (randVal : ℕ) : GameState :=
  if s.ball.x < 0 then
    { s with ball := Ball.reset randVal s.ball
             rightPlayer := s.rightPlayer.incrementScore }
  else s

/-- The `if (_x > SCREEN_WIDTH - BALL_SIZE)` block of `Ball::update`
(main.cpp lines 349-353): left player scores and the ball resets. -/
def ballScoreRightBound (s : GameState) (randVal : ℕ) : GameState :=
  if s.ball.x > SCREEN_WIDTH - BALL_SIZE then
    { s with ball := Ball.reset randVal s.ball
             leftPlayer := s.leftPlayer.incrementScore }
  else s

/-- The wall-bounce block of `Ball::update` (main.cpp lines 355-357). -/
def ballWallBounce (s : GameState) : GameState :=
  if s.ball.y < 0 ∨ s.ball.y > SCREEN_HEIGHT - BALL_SIZE then
    { s with ball := { s.ball with ySpeed := -s.ball.ySpeed } }
  else s

/-- The paddle-collision block of `Ball::update` (main.cpp lines 359-370):
left paddle first (bounce only), then right paddle (bounce followed by
`_xSpeed = -_xSpeed`). -/
def ballPaddles (s : GameState) : GameState :=
  let ballRect : Rect := ⟨s.ball.x, s.ball.y, BALL_SIZE, BALL_SIZE⟩
  let s1 :=
    if s.leftPlayer.coords.intersects ballRect then
      { s with ball := { s.ball with
          xSpeed := (s.ball.bounce s.leftPlayer).1
          ySpeed := (s.ball.bounce s.leftPlayer).2 } }
    else s
  if s1.rightPlayer.coords.intersects ballRect then
    { s1 with ball := { s1.ball with
        xSpeed := -(s1.ball.bounce s1.rightPlayer).1
        ySpeed := (s1.ball.bounce s1.rightPlayer).2 } }
  else s1

/-- The full `Ball::update` (main.cpp lines 339-371), as the composition
of its sequential blocks in source order. -/
def ballUpdate (s : GameState) (elapsed : ℚ) (randVal : ℕ) : GameState :=
  ballPaddles (ballWallBounce
    (ballScoreRightBound (ballScoreLeftBound (ballMove s elapsed) randVal) randVal))

/-- Top-level mutable state of the game loop: the game objects plus the
global `paused` flag (main.cpp line 626). -/
structure AppState where
  game : GameState
  paused : Bool
deriving DecidableEq

/-- Initial value of the global `paused` flag (main.cpp line 626). -/
def pausedInit : Bool := true

/-- The top-level `update` function (main.cpp lines 628-634): when not
paused, step the ball and then both players. -/
def topUpdate (s : AppState) (elapsed : ℚ) (randVal : ℕ) : AppState :=
  if s.paused then s
  else
    { s with game :=
        let g := ballUpdate s.game elapsed randVal
        { g with leftPlayer := g.leftPlayer.update elapsed
                 rightPlayer := g.rightPlayer.update elapsed } }

/-- Vertex construction `verticesForRect` (main.cpp lines 543-581): the
30 floats (two triangles of five components each) written for one
rectangle, in write order. -/
def verticesForRect (rect : Rect) (color : Color) : List ℚ :=
  [rect.x / SCREEN_WIDTH * 2 - 1, (-rect.y / SCREEN_HEIGHT) * 2 + 1,
     color.r, color.g, color.b,
   (rect.x + rect.width) / SCREEN_WIDTH * 2 - 1,
     (-(rect.y + rect.height) / SCREEN_HEIGHT) * 2 + 1,
     color.r, color.g, color.b,
   rect.x / SCREEN_WIDTH * 2 - 1,
     (-(rect.y + rect.height) / SCREEN_HEIGHT) * 2 + 1,
     color.r, color.g, color.b,
   rect.x / SCREEN_WIDTH * 2 - 1, (-rect.y / SCREEN_HEIGHT) * 2 + 1,
     color.r, color.g, color.b,
   (rect.x + rect.width) / SCREEN_WIDTH * 2 - 1,
     (-rect.y / SCREEN_HEIGHT) * 2 + 1,
     color.r, color.g, color.b,
   (rect.x + rect.width) / SCREEN_WIDTH * 2 - 1,
     (-(rect.y + rect.height) / SCREEN_HEIGHT) * 2 + 1,
     color.r, color.g, color.b]

/-- The single draw call issued by `drawRectangles`: the flat vertex
buffer handed to `glBufferData` and the vertex count handed to
`glDrawArrays` (main.cpp lines 598-602). -/
structure DrawCall where
  vertexData : List ℚ
  vertexCount : ℕ
deriving DecidableEq

/-- Renderer entry `drawRectangles` (main.cpp lines 585-603).  A length
mismatch between the two lists calls `exit(1)` after logging, modelled
as `none`; otherwise the vertex buffer is built and one draw call issued. -/
def drawRectangles (rects : List Rect) (colors : List Color) : Option DrawCall :=
  if rects.length ≠ colors.length then none
  else
    some { vertexData := (rects.zip colors).flatMap fun rc => verticesForRect rc.1 rc.2
           vertexCount := rects.length * 30 / 2 }

/-! ### Helper lemmas -/

lemma contains_eq_true_iff (r : Rect) (p : Point) :
    r.contains p = true ↔
      r.x < p.x ∧ p.x < r.x + r.width ∧ r.y < p.y ∧ p.y < r.y + r.height := by
  unfold Rect.contains
  split_ifs with h1 h2 <;> simp_all

lemma intersects_eq_true_iff (r other : Rect) :
    r.intersects other = true ↔
      (other.contains r.topLeft = true ∨ other.contains r.topRight = true ∨
       other.contains r.bottomLeft = true ∨ other.contains r.bottomRight = true) ∨
      (r.contains other.topLeft = true ∨ r.contains other.topRight = true ∨
       r.contains other.bottomLeft = true ∨ r.contains other.bottomRight = true) := by
  unfold Rect.intersects
  split_ifs with h1 h2 <;> simp_all

lemma intersects_x_overlap (r other : Rect)
    (hw1 : 0 ≤ r.width) (hw2 : 0 ≤ other.width)
    (h : r.intersects other = true) :
    other.x < r.x + r.width ∧ r.x < other.x + other.width := by
  rw [intersects_eq_true_iff] at h
  simp only [contains_eq_true_iff, Rect.topLeft, Rect.topRight, Rect.bottomLeft,
    Rect.bottomRight] at h
  rcases h with (h | h | h | h) | (h | h | h | h) <;>
    exact ⟨by linarith [h.1, h.2.1], by linarith [h.1, h.2.1]⟩

lemma intersects_y_overlap (r other : Rect)
    (hh1 : 0 ≤ r.height) (hh2 : 0 ≤ other.height)
    (h : r.intersects other = true) :
    other.y < r.y + r.height ∧ r.y < other.y + other.height := by
  rw [intersects_eq_true_iff] at h
  simp only [contains_eq_true_iff, Rect.topLeft, Rect.topRight, Rect.bottomLeft,
    Rect.bottomRight] at h
  rcases h with (h | h | h | h) | (h | h | h | h) <;>
    exact ⟨by linarith [h.2.2.1, h.2.2.2], by linarith [h.2.2.1, h.2.2.2]⟩

lemma randomInteger_1_7_bounds (randVal : ℕ) :
    1 ≤ randomInteger 1 7 randVal ∧ randomInteger 1 7 randVal ≤ 6 := by
  unfold randomInteger
  have h1 : (0 : ℤ) ≤ (randVal : ℤ) % (7 - 1) := Int.emod_nonneg _ (by norm_num)
  have h2 : (randVal : ℤ) % (7 - 1) < 6 := by
    have := Int.emod_lt_of_pos (randVal : ℤ) (show (0:ℤ) < 7 - 1 by norm_num)
    omega
  omega

lemma resetVelocity_cases (d : ℤ) (b : Ball) (h1 : 1 ≤ d) (h6 : d ≤ 6) :
    resetVelocity d b ∈
      ([(MAX_BALL_SPEED, -MAX_BALL_SPEED), (MAX_BALL_SPEED, 0),
        (MAX_BALL_SPEED, MAX_BALL_SPEED), (-MAX_BALL_SPEED, MAX_BALL_SPEED),
        (-MAX_BALL_SPEED, 0), (-MAX_BALL_SPEED, -MAX_BALL_SPEED)] : List (ℚ × ℚ)) := by
  interval_cases d <;> simp [resetVelocity]

lemma reset_position (randVal : ℕ) (b : Ball) :
    (Ball.reset randVal b).x = SCREEN_WIDTH / 2 - BALL_SIZE / 2 ∧
    (Ball.reset randVal b).y = SCREEN_HEIGHT / 2 - BALL_SIZE / 2 :=
  ⟨rfl, rfl⟩

lemma reset_speed_mem (randVal : ℕ) (b : Ball) :
    ((Ball.reset randVal b).xSpeed, (Ball.reset randVal b).ySpeed) ∈
      ([(MAX_BALL_SPEED, -MAX_BALL_SPEED), (MAX_BALL_SPEED, 0),
        (MAX_BALL_SPEED, MAX_BALL_SPEED), (-MAX_BALL_SPEED, MAX_BALL_SPEED),
        (-MAX_BALL_SPEED, 0), (-MAX_BALL_SPEED, -MAX_BALL_SPEED)] : List (ℚ × ℚ)) := by
  obtain ⟨h1, h6⟩ := randomInteger_1_7_bounds randVal
  have := resetVelocity_cases (randomInteger 1 7 randVal) b h1 h6
  simpa [Ball.reset] using this

lemma abs_copysignf (mag sgn : ℚ) : |copysignf mag sgn| = |mag| := by
  unfold copysignf
  split_ifs with h
  · rw [abs_neg, abs_abs]
  · rw [abs_abs]

lemma normalizedDistance_bounds (b : Ball) (player : Player) :
    0 ≤ normalizedDistance b player ∧ normalizedDistance b player ≤ 1 := by
  unfold normalizedDistance fmin fabs
  constructor
  · apply le_min
    · norm_num
    · apply div_nonneg (abs_nonneg _)
      norm_num [HALF_PLAYER_HEIGHT, PLAYER_HEIGHT]
  · exact min_le_left _ _

lemma speedScaleX_bounds (b : Ball) (player : Player) :
    1/2 ≤ speedScaleX b player ∧ speedScaleX b player ≤ 1 := by
  obtain ⟨h0, h1⟩ := normalizedDistance_bounds b player
  unfold speedScaleX fmax
  constructor
  · exact le_max_left _ _
  · apply max_le <;> linarith

lemma speedScaleY_bounds (b : Ball) (player : Player) :
    1/2 ≤ speedScaleY b player ∧ speedScaleY b player ≤ 1 := by
  obtain ⟨h0, h1⟩ := normalizedDistance_bounds b player
  unfold speedScaleY fmax
  constructor
  · exact le_max_left _ _
  · apply max_le <;> linarith

lemma bounce_xSpeed_bounds (b : Ball) (player : Player) :
    0 < (b.bounce player).1 ∧ (b.bounce player).1 ≤ MAX_BALL_SPEED := by
  obtain ⟨hlo, hhi⟩ := speedScaleX_bounds b player
  unfold Ball.bounce fmin
  constructor
  · apply lt_min
    · norm_num [MAX_BALL_SPEED]
    · have : MAX_BALL_SPEED * (1/2) ≤ MAX_BALL_SPEED * speedScaleX b player := by
        apply mul_le_mul_of_nonneg_left hlo
        norm_num [MAX_BALL_SPEED]
      norm_num [MAX_BALL_SPEED] at this ⊢
      linarith
  · exact min_le_left _ _

lemma bounce_ySpeed_bound (b : Ball) (player : Player) :
    |(b.bounce player).2| ≤ MAX_BALL_SPEED := by
  obtain ⟨hlo, hhi⟩ := speedScaleY_bounds b player
  obtain ⟨h0, _⟩ := normalizedDistance_bounds b player
  unfold Ball.bounce
  rw [abs_copysignf]
  rw [abs_of_nonneg (by nlinarith [show (0:ℚ) < MAX_BALL_SPEED by norm_num [MAX_BALL_SPEED]])]
  nlinarith [show (0:ℚ) < MAX_BALL_SPEED by norm_num [MAX_BALL_SPEED]]

lemma ballMove_fields (s : GameState) (elapsed : ℚ) :
    (ballMove s elapsed).ball.x = s.ball.x + s.ball.xSpeed * elapsed ∧
    (ballMove s elapsed).ball.y = s.ball.y + s.ball.ySpeed * elapsed ∧
    (ballMove s elapsed).ball.xSpeed = s.ball.xSpeed ∧
    (ballMove s elapsed).ball.ySpeed = s.ball.ySpeed ∧
    (ballMove s elapsed).leftPlayer = s.leftPlayer ∧
    (ballMove s elapsed).rightPlayer = s.rightPlayer :=
  ⟨rfl, rfl, rfl, rfl, rfl, rfl⟩

lemma ballWallBounce_fields (s : GameState) :
    (ballWallBounce s).ball.x = s.ball.x ∧
    (ballWallBounce s).ball.y = s.ball.y ∧
    (ballWallBounce s).ball.xSpeed = s.ball.xSpeed ∧
    (ballWallBounce s).leftPlayer = s.leftPlayer ∧
    (ballWallBounce s).rightPlayer = s.rightPlayer := by
  unfold ballWallBounce
  split_ifs <;> exact ⟨rfl, rfl, rfl, rfl, rfl⟩

lemma ballPaddles_fields (s : GameState) :
    (ballPaddles s).ball.x = s.ball.x ∧
    (ballPaddles s).ball.y = s.ball.y ∧
    (ballPaddles s).leftPlayer = s.leftPlayer ∧
    (ballPaddles s).rightPlayer = s.rightPlayer := by
  simp only [ballPaddles]
  split_ifs <;> exact ⟨rfl, rfl, rfl, rfl⟩

lemma ballScoreLeftBound_coords (s : GameState) (randVal : ℕ) :
    (ballScoreLeftBound s randVal).leftPlayer.coords = s.leftPlayer.coords ∧
    (ballScoreLeftBound s randVal).rightPlayer.coords = s.rightPlayer.coords := by
  unfold ballScoreLeftBound Player.incrementScore
  split_ifs <;> exact ⟨rfl, rfl⟩

lemma ballScoreRightBound_coords (s : GameState) (randVal : ℕ) :
    (ballScoreRightBound s randVal).leftPlayer.coords = s.leftPlayer.coords ∧
    (ballScoreRightBound s randVal).rightPlayer.coords = s.rightPlayer.coords := by
  unfold ballScoreRightBound Player.incrementScore
  split_ifs <;> exact ⟨rfl, rfl⟩

lemma paddles_disjoint (leftRect rightRect ballRect : Rect)
    (hLx : leftRect.x = 10) (hLw : leftRect.width = PLAYER_WIDTH)
    (hRx : rightRect.x = SCREEN_WIDTH - PLAYER_WIDTH - 10)
    (hRw : rightRect.width = PLAYER_WIDTH) (hBw : ballRect.width = BALL_SIZE)
    (hL : leftRect.intersects ballRect = true)
    (hR : rightRect.intersects ballRect = true) : False := by
  have h1 := intersects_x_overlap leftRect ballRect
    (by rw [hLw]; norm_num [PLAYER_WIDTH]) (by rw [hBw]; norm_num [BALL_SIZE]) hL
  have h2 := intersects_x_overlap rightRect ballRect
    (by rw [hRw]; norm_num [PLAYER_WIDTH]) (by rw [hBw]; norm_num [BALL_SIZE]) hR
  rw [hLx, hLw, hBw] at h1
  rw [hRx, hRw, hBw] at h2
  norm_num [PLAYER_WIDTH, BALL_SIZE, SCREEN_WIDTH] at h1 h2
  linarith [h1.1, h2.2]

lemma reset_speed_bound (randVal : ℕ) (b : Ball) :
    |(Ball.reset randVal b).xSpeed| ≤ MAX_BALL_SPEED ∧
    |(Ball.reset randVal b).ySpeed| ≤ MAX_BALL_SPEED := by
  have h := reset_speed_mem randVal b
  simp only [List.mem_cons, List.not_mem_nil, or_false, Prod.mk.injEq] at h
  rcases h with h | h | h | h | h | h <;> rw [h.1, h.2] <;>
    constructor <;> norm_num [MAX_BALL_SPEED]

lemma ballScoreLeftBound_speed_bound (s : GameState) (randVal : ℕ)
    (hx : |s.ball.xSpeed| ≤ MAX_BALL_SPEED) (hy : |s.ball.ySpeed| ≤ MAX_BALL_SPEED) :
    |(ballScoreLeftBound s randVal).ball.xSpeed| ≤ MAX_BALL_SPEED ∧
    |(ballScoreLeftBound s randVal).ball.ySpeed| ≤ MAX_BALL_SPEED := by
  unfold ballScoreLeftBound
  split_ifs with h
  · exact reset_speed_bound randVal s.ball
  · exact ⟨hx, hy⟩

lemma ballScoreRightBound_speed_bound (s : GameState) (randVal : ℕ)
    (hx : |s.ball.xSpeed| ≤ MAX_BALL_SPEED) (hy : |s.ball.ySpeed| ≤ MAX_BALL_SPEED) :
    |(ballScoreRightBound s randVal).ball.xSpeed| ≤ MAX_BALL_SPEED ∧
    |(ballScoreRightBound s randVal).ball.ySpeed| ≤ MAX_BALL_SPEED := by
  unfold ballScoreRightBound
  split_ifs with h
  · exact reset_speed_bound randVal s.ball
  · exact ⟨hx, hy⟩

lemma ballWallBounce_speed_bound (s : GameState)
    (hx : |s.ball.xSpeed| ≤ MAX_BALL_SPEED) (hy : |s.ball.ySpeed| ≤ MAX_BALL_SPEED) :
    |(ballWallBounce s).ball.xSpeed| ≤ MAX_BALL_SPEED ∧
    |(ballWallBounce s).ball.ySpeed| ≤ MAX_BALL_SPEED := by
  unfold ballWallBounce
  split_ifs with h
  · exact ⟨hx, by rw [abs_neg]; exact hy⟩
  · exact ⟨hx, hy⟩

lemma abs_bounce_xSpeed (b : Ball) (player : Player) :
    |(b.bounce player).1| ≤ MAX_BALL_SPEED := by
  obtain ⟨h0, h1⟩ := bounce_xSpeed_bounds b player
  rw [abs_of_pos h0]
  exact h1

lemma ballPaddles_speed_bound (s : GameState)
    (hx : |s.ball.xSpeed| ≤ MAX_BALL_SPEED) (hy : |s.ball.ySpeed| ≤ MAX_BALL_SPEED) :
    |(ballPaddles s).ball.xSpeed| ≤ MAX_BALL_SPEED ∧
    |(ballPaddles s).ball.ySpeed| ≤ MAX_BALL_SPEED := by
  simp only [ballPaddles]
  split_ifs with h1 h2 h3
  · exact ⟨by rw [abs_neg]; exact abs_bounce_xSpeed _ _, bounce_ySpeed_bound _ _⟩
  · exact ⟨abs_bounce_xSpeed _ _, bounce_ySpeed_bound _ _⟩
  · exact ⟨by rw [abs_neg]; exact abs_bounce_xSpeed _ _, bounce_ySpeed_bound _ _⟩
  · exact ⟨hx, hy⟩

/-! ### Claim theorems -/

/-- C4: in `Ball::update`, the sign of the ball's y-velocity is negated exactly
when the updated y-position lies strictly outside [0, SCREEN_HEIGHT − BALL_SIZE],
and the wall-bounce step is a pure reflection: the x-velocity, the ball's
position and both players are left unchanged. -/
theorem wall_bounce_pure_reflection (s : GameState) :
    (ballWallBounce s).ball.ySpeed =
      (if 0 ≤ s.ball.y ∧ s.ball.y ≤ SCREEN_HEIGHT - BALL_SIZE then s.ball.ySpeed
       else -s.ball.ySpeed) ∧
    (ballWallBounce s).ball.xSpeed = s.ball.xSpeed ∧
    (ballWallBounce s).ball.x = s.ball.x ∧
    (ballWallBounce s).ball.y = s.ball.y ∧
    (ballWallBounce s).leftPlayer = s.leftPlayer ∧
    (ballWallBounce s).rightPlayer = s.rightPlayer := by
  obtain ⟨hx, hy, hxs, hl, hr⟩ := ballWallBounce_fields s
  refine ⟨?_, hxs, hx, hy, hl, hr⟩
  unfold ballWallBounce
  split_ifs with h1 h2 h3
  · exfalso
    rcases h1 with h | h
    · linarith [h2.1]
    · linarith [h2.2]
  · rfl
  · rfl
  · push_neg at h1
    exact absurd ⟨h1.1, h1.2⟩ h3

/-- C5: `Player::update(elapsed)` adds verticalSpeed × elapsed to the paddle's
y-position and then clamps it to [0, SCREEN_HEIGHT − PLAYER_HEIGHT]; for every
elapsed ≥ 0 and every starting state the resulting y lies in that interval. -/
theorem player_update_clamps (p : Player) (elapsed : ℚ) (h : 0 ≤ elapsed) :
    0 ≤ (p.update elapsed).coords.y ∧
    (p.update elapsed).coords.y ≤ SCREEN_HEIGHT - PLAYER_HEIGHT ∧
    (p.update elapsed).coords.y =
      max 0 (min (SCREEN_HEIGHT - PLAYER_HEIGHT) (p.coords.y + p.verticalSpeed * elapsed)) := by
  have hpos : (0:ℚ) < SCREEN_HEIGHT - PLAYER_HEIGHT := by
    norm_num [SCREEN_HEIGHT, PLAYER_HEIGHT]
  simp only [Player.update, Player.moveVertical]
  split_ifs with h1 h2 h3
  · exact absurd h2 (by push_neg; exact hpos.le)
  · refine ⟨hpos.le, le_refl _, ?_⟩
    rw [min_eq_left (le_of_lt h1), max_eq_right hpos.le]
  · refine ⟨le_refl _, hpos.le, ?_⟩
    rw [min_eq_right (not_lt.mp h1), max_eq_left (le_of_lt h3)]
  · push_neg at h1 h3
    exact ⟨h3, h1, by rw [min_eq_right h1, max_eq_right h3]⟩

/-- Witness for C5 at the left player's initial state with elapsed 1. -/
theorem player_update_clamps_witness :
    0 ≤ ((Player.init .left).update 1).coords.y ∧
    ((Player.init .left).update 1).coords.y ≤ SCREEN_HEIGHT - PLAYER_HEIGHT ∧
    ((Player.init .left).update 1).coords.y =
      max 0 (min (SCREEN_HEIGHT - PLAYER_HEIGHT)
        ((Player.init .left).coords.y + (Player.init .left).verticalSpeed * 1)) :=
  player_update_clamps (Player.init .left) 1 (by norm_num)

/-- C6: every `Ball::reset` selects its velocity by a random integer in [1,6]
(from `randomInteger(1,7)`); the result is one of exactly 6 enumerated
(xSpeed, ySpeed) pairs, each with |xSpeed| = MAX_BALL_SPEED, so straight-up or
straight-down (xSpeed = 0) is never produced. -/
theorem reset_direction_enumeration (b : Ball) (randVal : ℕ) :
    (1 ≤ randomInteger 1 7 randVal ∧ randomInteger 1 7 randVal ≤ 6) ∧
    ((Ball.reset randVal b).xSpeed, (Ball.reset randVal b).ySpeed) ∈
      ([(MAX_BALL_SPEED, -MAX_BALL_SPEED), (MAX_BALL_SPEED, 0),
        (MAX_BALL_SPEED, MAX_BALL_SPEED), (-MAX_BALL_SPEED, MAX_BALL_SPEED),
        (-MAX_BALL_SPEED, 0), (-MAX_BALL_SPEED, -MAX_BALL_SPEED)] : List (ℚ × ℚ)) ∧
    |(Ball.reset randVal b).xSpeed| = MAX_BALL_SPEED ∧
    (Ball.reset randVal b).xSpeed ≠ 0 := by
  refine ⟨randomInteger_1_7_bounds randVal, reset_speed_mem randVal b, ?_, ?_⟩
  · have hmem := reset_speed_mem randVal b
    simp only [List.mem_cons, List.not_mem_nil, or_false, Prod.mk.injEq] at hmem
    rcases hmem with h | h | h | h | h | h <;> rw [h.1] <;> norm_num [MAX_BALL_SPEED]
  · have hmem := reset_speed_mem randVal b
    simp only [List.mem_cons, List.not_mem_nil, or_false, Prod.mk.injEq] at hmem
    rcases hmem with h | h | h | h | h | h <;> rw [h.1] <;> norm_num [MAX_BALL_SPEED]

/-- C7: `drawRectangles` with rectangle and color lists of unequal length
terminates the process (modelled as `none`): no vertex data is built and no
draw call is issued. -/
theorem drawRectangles_mismatch_fatal (rects : List Rect) (colors : List Color)
    (h : rects.length ≠ colors.length) :
    drawRectangles rects colors = none := by
  unfold drawRectangles
  rw [if_pos h]

/-- Witness for C7 on a one-rectangle, zero-color input. -/
theorem drawRectangles_mismatch_fatal_witness :
    drawRectangles [⟨0, 0, 1, 1⟩] [] = none :=
  drawRectangles_mismatch_fatal [⟨0, 0, 1, 1⟩] [] (by decide)

/-- C9: the pause flag is initialized to true, and while it is set the
top-level `update` leaves the entire game state (ball position and velocity,
both players' positions and scores) unchanged, for every elapsed time. -/
theorem paused_game_frozen (s : AppState) (elapsed : ℚ) (randVal : ℕ)
    (h : s.paused = true) :
    pausedInit = true ∧ topUpdate s elapsed randVal = s := by
  refine ⟨rfl, ?_⟩
  unfold topUpdate
  rw [if_pos h]

/-- Witness for C9 at a concrete paused state. -/
theorem paused_game_frozen_witness :
    pausedInit = true ∧
    topUpdate ⟨⟨⟨0, 0, 100, 100⟩, Player.init .left, Player.init .right⟩, true⟩ 1 0 =
      ⟨⟨⟨0, 0, 100, 100⟩, Player.init .left, Player.init .right⟩, true⟩ :=
  paused_game_frozen ⟨⟨⟨0, 0, 100, 100⟩, Player.init .left, Player.init .right⟩, true⟩ 1 0 rfl

/-- C3: in `Ball::bounce`, a ball exactly at the paddle's vertical center gives
the maximum horizontal scale 1 and the minimum vertical scale 1/2; a ball at
the paddle's extreme vertical edge (normalized offset 1) gives the minimum
horizontal scale 1/2 and the maximum vertical scale 1; and the resulting
horizontal speed is min(MAX_BALL_SPEED, MAX_BALL_SPEED * speedScaleX +
MAX_BALL_SPEED / 2). -/
theorem bounce_scale_extremes (b : Ball) (player : Player) :
    (b.y + BALL_SIZE / 2 = player.coords.y + HALF_PLAYER_HEIGHT →
       speedScaleX b player = 1 ∧ speedScaleY b player = 1/2) ∧
    (fabs (player.coords.y + HALF_PLAYER_HEIGHT - (b.y + BALL_SIZE / 2)) =
        HALF_PLAYER_HEIGHT →
       normalizedDistance b player = 1 ∧
       speedScaleX b player = 1/2 ∧ speedScaleY b player = 1) ∧
    (b.bounce player).1 =
      fmin MAX_BALL_SPEED (MAX_BALL_SPEED * speedScaleX b player + MAX_BALL_SPEED / 2) := by
  refine ⟨?_, ?_, rfl⟩
  · intro hc
    have hdiff : player.coords.y + HALF_PLAYER_HEIGHT - (b.y + BALL_SIZE / 2) = 0 := by
      rw [← hc]; ring
    have hnd : normalizedDistance b player = 0 := by
      simp only [normalizedDistance, fmin, fabs]
      rw [hdiff, abs_zero, zero_div]
      exact min_eq_right (by norm_num)
    constructor
    · simp only [speedScaleX, fmax, hnd]
      rw [sub_zero]
      exact max_eq_right (by norm_num)
    · simp only [speedScaleY, fmax, hnd]
      exact max_eq_left (by norm_num)
  · intro he
    have hnd : normalizedDistance b player = 1 := by
      simp only [normalizedDistance, fmin, fabs]
      simp only [fabs] at he
      rw [he, div_self (by norm_num [HALF_PLAYER_HEIGHT, PLAYER_HEIGHT])]
      exact min_self 1
    refine ⟨hnd, ?_, ?_⟩
    · simp only [speedScaleX, fmax, hnd]
      rw [sub_self]
      exact max_eq_left (by norm_num)
    · simp only [speedScaleY, fmax, hnd]
      exact max_eq_right (by norm_num)

/-- Witness for C3: a ball centered on the left paddle's center, and a ball
centered on the paddle's top edge. -/
theorem bounce_scale_extremes_witness :
    (speedScaleX ⟨0, 465/2, 0, 0⟩ (Player.init .left) = 1 ∧
     speedScaleY ⟨0, 465/2, 0, 0⟩ (Player.init .left) = 1/2) ∧
    (normalizedDistance ⟨0, 565/2, 0, 0⟩ (Player.init .left) = 1 ∧
     speedScaleX ⟨0, 565/2, 0, 0⟩ (Player.init .left) = 1/2 ∧
     speedScaleY ⟨0, 565/2, 0, 0⟩ (Player.init .left) = 1) :=
  ⟨(bounce_scale_extremes ⟨0, 465/2, 0, 0⟩ (Player.init .left)).1
     (by norm_num [Player.init, SCREEN_HEIGHT, PLAYER_HEIGHT, HALF_PLAYER_HEIGHT, BALL_SIZE]),
   (bounce_scale_extremes ⟨0, 565/2, 0, 0⟩ (Player.init .left)).2.1
     (by
       unfold fabs
       rw [show (Player.init .left).coords.y + HALF_PLAYER_HEIGHT -
             ((⟨0, 565/2, 0, 0⟩ : Ball).y + BALL_SIZE / 2) = -HALF_PLAYER_HEIGHT by
           norm_num [Player.init, SCREEN_HEIGHT, PLAYER_HEIGHT, HALF_PLAYER_HEIGHT, BALL_SIZE]]
       rw [abs_neg, abs_of_nonneg (by norm_num [HALF_PLAYER_HEIGHT, PLAYER_HEIGHT])])⟩

/-- C8: the invariant |xSpeed| ≤ MAX_BALL_SPEED and |ySpeed| ≤ MAX_BALL_SPEED is
preserved by every `Ball::update` step, and holds unconditionally after every
`Ball::reset`. -/
theorem speed_magnitude_invariant (s : GameState) (elapsed : ℚ) (randVal : ℕ) (b : Ball)
    (hx : |s.ball.xSpeed| ≤ MAX_BALL_SPEED) (hy : |s.ball.ySpeed| ≤ MAX_BALL_SPEED) :
    (|(ballUpdate s elapsed randVal).ball.xSpeed| ≤ MAX_BALL_SPEED ∧
     |(ballUpdate s elapsed randVal).ball.ySpeed| ≤ MAX_BALL_SPEED) ∧
    (|(Ball.reset randVal b).xSpeed| ≤ MAX_BALL_SPEED ∧
     |(Ball.reset randVal b).ySpeed| ≤ MAX_BALL_SPEED) := by
  refine ⟨?_, reset_speed_bound randVal b⟩
  unfold ballUpdate
  have h1 := ballScoreLeftBound_speed_bound (ballMove s elapsed) randVal hx hy
  have h2 := ballScoreRightBound_speed_bound _ randVal h1.1 h1.2
  have h3 := ballWallBounce_speed_bound _ h2.1 h2.2
  exact ballPaddles_speed_bound _ h3.1 h3.2

/-- Witness for C8 at a concrete state with in-range speeds. -/
theorem speed_magnitude_invariant_witness :
    (|(ballUpdate ⟨⟨300, 200, 200, -200⟩, Player.init .left, Player.init .right⟩
        1 3).ball.xSpeed| ≤ MAX_BALL_SPEED ∧
     |(ballUpdate ⟨⟨300, 200, 200, -200⟩, Player.init .left, Player.init .right⟩
        1 3).ball.ySpeed| ≤ MAX_BALL_SPEED) ∧
    (|(Ball.reset 3 ⟨0, 0, 0, 0⟩).xSpeed| ≤ MAX_BALL_SPEED ∧
     |(Ball.reset 3 ⟨0, 0, 0, 0⟩).ySpeed| ≤ MAX_BALL_SPEED) :=
  speed_magnitude_invariant ⟨⟨300, 200, 200, -200⟩, Player.init .left, Player.init .right⟩
    1 3 ⟨0, 0, 0, 0⟩ (by decide) (by decide)

lemma tail_fields (t : GameState) :
    (ballPaddles (ballWallBounce t)).ball.x = t.ball.x ∧
    (ballPaddles (ballWallBounce t)).ball.y = t.ball.y ∧
    (ballPaddles (ballWallBounce t)).leftPlayer = t.leftPlayer ∧
    (ballPaddles (ballWallBounce t)).rightPlayer = t.rightPlayer := by
  obtain ⟨px, py, pl, pr⟩ := ballPaddles_fields (ballWallBounce t)
  obtain ⟨wx, wy, _, wl, wr⟩ := ballWallBounce_fields t
  exact ⟨px.trans wx, py.trans wy, pl.trans wl, pr.trans wr⟩

/-- C1: in `Ball::update`, when the updated x-position goes below 0 the right
player's score is incremented exactly once (the left player's is unchanged) and
the ball is repositioned to the exact screen center; symmetrically, when the
updated x-position goes above SCREEN_WIDTH − BALL_SIZE the left player's score
is incremented exactly once and the ball is likewise reset to center. -/
theorem scoring_increments_and_recenters (s : GameState) (elapsed : ℚ) (randVal : ℕ) :
    (s.ball.x + s.ball.xSpeed * elapsed < 0 →
       (ballUpdate s elapsed randVal).rightPlayer.score = s.rightPlayer.score + 1 ∧
       (ballUpdate s elapsed randVal).leftPlayer.score = s.leftPlayer.score ∧
       (ballUpdate s elapsed randVal).ball.x = SCREEN_WIDTH / 2 - BALL_SIZE / 2 ∧
       (ballUpdate s elapsed randVal).ball.y = SCREEN_HEIGHT / 2 - BALL_SIZE / 2) ∧
    (s.ball.x + s.ball.xSpeed * elapsed > SCREEN_WIDTH - BALL_SIZE →
       (ballUpdate s elapsed randVal).leftPlayer.score = s.leftPlayer.score + 1 ∧
       (ballUpdate s elapsed randVal).rightPlayer.score = s.rightPlayer.score ∧
       (ballUpdate s elapsed randVal).ball.x = SCREEN_WIDTH / 2 - BALL_SIZE / 2 ∧
       (ballUpdate s elapsed randVal).ball.y = SCREEN_HEIGHT / 2 - BALL_SIZE / 2) := by
  constructor
  · intro h
    have hm : (ballMove s elapsed).ball.x < 0 := h
    unfold ballUpdate
    have e1 : ballScoreLeftBound (ballMove s elapsed) randVal =
        { ballMove s elapsed with
            ball := Ball.reset randVal (ballMove s elapsed).ball
            rightPlayer := (ballMove s elapsed).rightPlayer.incrementScore } := by
      unfold ballScoreLeftBound
      rw [if_pos hm]
    rw [e1]
    have e2 : ballScoreRightBound
        { ballMove s elapsed with
            ball := Ball.reset randVal (ballMove s elapsed).ball
            rightPlayer := (ballMove s elapsed).rightPlayer.incrementScore } randVal =
        { ballMove s elapsed with
            ball := Ball.reset randVal (ballMove s elapsed).ball
            rightPlayer := (ballMove s elapsed).rightPlayer.incrementScore } := by
      unfold ballScoreRightBound
      rw [if_neg]
      push_neg
      rw [(reset_position randVal (ballMove s elapsed).ball).1]
      norm_num [SCREEN_WIDTH, BALL_SIZE]
    rw [e2]
    obtain ⟨tx, ty, tl, tr⟩ := tail_fields
      { ballMove s elapsed with
          ball := Ball.reset randVal (ballMove s elapsed).ball
          rightPlayer := (ballMove s elapsed).rightPlayer.incrementScore }
    refine ⟨?_, ?_, ?_, ?_⟩
    · rw [tr]; rfl
    · rw [tl]; rfl
    · rw [tx]; exact (reset_position randVal (ballMove s elapsed).ball).1
    · rw [ty]; exact (reset_position randVal (ballMove s elapsed).ball).2
  · intro h
    have hm : (ballMove s elapsed).ball.x > SCREEN_WIDTH - BALL_SIZE := h
    have hnn : (0:ℚ) ≤ SCREEN_WIDTH - BALL_SIZE := by norm_num [SCREEN_WIDTH, BALL_SIZE]
    unfold ballUpdate
    have e1 : ballScoreLeftBound (ballMove s elapsed) randVal = ballMove s elapsed := by
      unfold ballScoreLeftBound
      rw [if_neg]
      push_neg
      linarith
    rw [e1]
    have e2 : ballScoreRightBound (ballMove s elapsed) randVal =
        { ballMove s elapsed with
            ball := Ball.reset randVal (ballMove s elapsed).ball
            leftPlayer := (ballMove s elapsed).leftPlayer.incrementScore } := by
      unfold ballScoreRightBound
      rw [if_pos hm]
    rw [e2]
    obtain ⟨tx, ty, tl, tr⟩ := tail_fields
      { ballMove s elapsed with
          ball := Ball.reset randVal (ballMove s elapsed).ball
          leftPlayer := (ballMove s elapsed).leftPlayer.incrementScore }
    refine ⟨?_, ?_, ?_, ?_⟩
    · rw [tl]; rfl
    · rw [tr]; rfl
    · rw [tx]; exact (reset_position randVal (ballMove s elapsed).ball).1
    · rw [ty]; exact (reset_position randVal (ballMove s elapsed).ball).2

/-- Witness for C1: one state whose ball exits the left bound and one whose
ball exits the right bound, both with elapsed 0. -/
theorem scoring_increments_and_recenters_witness :
    ((ballUpdate ⟨⟨-5, 100, 0, 0⟩, Player.init .left, Player.init .right⟩
        0 0).rightPlayer.score =
      (⟨⟨-5, 100, 0, 0⟩, Player.init .left, Player.init .right⟩ :
        GameState).rightPlayer.score + 1 ∧
     (ballUpdate ⟨⟨-5, 100, 0, 0⟩, Player.init .left, Player.init .right⟩
        0 0).leftPlayer.score =
      (⟨⟨-5, 100, 0, 0⟩, Player.init .left, Player.init .right⟩ :
        GameState).leftPlayer.score ∧
     (ballUpdate ⟨⟨-5, 100, 0, 0⟩, Player.init .left, Player.init .right⟩
        0 0).ball.x = SCREEN_WIDTH / 2 - BALL_SIZE / 2 ∧
     (ballUpdate ⟨⟨-5, 100, 0, 0⟩, Player.init .left, Player.init .right⟩
        0 0).ball.y = SCREEN_HEIGHT / 2 - BALL_SIZE / 2) ∧
    ((ballUpdate ⟨⟨630, 100, 0, 0⟩, Player.init .left, Player.init .right⟩
        0 0).leftPlayer.score =
      (⟨⟨630, 100, 0, 0⟩, Player.init .left, Player.init .right⟩ :
        GameState).leftPlayer.score + 1 ∧
     (ballUpdate ⟨⟨630, 100, 0, 0⟩, Player.init .left, Player.init .right⟩
        0 0).rightPlayer.score =
      (⟨⟨630, 100, 0, 0⟩, Player.init .left, Player.init .right⟩ :
        GameState).rightPlayer.score ∧
     (ballUpdate ⟨⟨630, 100, 0, 0⟩, Player.init .left, Player.init .right⟩
        0 0).ball.x = SCREEN_WIDTH / 2 - BALL_SIZE / 2 ∧
     (ballUpdate ⟨⟨630, 100, 0, 0⟩, Player.init .left, Player.init .right⟩
        0 0).ball.y = SCREEN_HEIGHT / 2 - BALL_SIZE / 2) :=
  ⟨(scoring_increments_and_recenters
      ⟨⟨-5, 100, 0, 0⟩, Player.init .left, Player.init .right⟩ 0 0).1 (by norm_num),
   (scoring_increments_and_recenters
      ⟨⟨630, 100, 0, 0⟩, Player.init .left, Player.init .right⟩ 0 0).2
     (by norm_num [SCREEN_WIDTH, BALL_SIZE])⟩

lemma pre_paddle_coords (s : GameState) (elapsed : ℚ) (randVal : ℕ) :
    (ballWallBounce (ballScoreRightBound (ballScoreLeftBound
        (ballMove s elapsed) randVal) randVal)).leftPlayer.coords =
      s.leftPlayer.coords ∧
    (ballWallBounce (ballScoreRightBound (ballScoreLeftBound
        (ballMove s elapsed) randVal) randVal)).rightPlayer.coords =
      s.rightPlayer.coords := by
  obtain ⟨_, _, _, wl, wr⟩ := ballWallBounce_fields
    (ballScoreRightBound (ballScoreLeftBound (ballMove s elapsed) randVal) randVal)
  obtain ⟨rl, rr⟩ := ballScoreRightBound_coords
    (ballScoreLeftBound (ballMove s elapsed) randVal) randVal
  obtain ⟨ll, lr⟩ := ballScoreLeftBound_coords (ballMove s elapsed) randVal
  constructor
  · rw [wl, rl, ll]
    rfl
  · rw [wr, rr, lr]
    rfl

/-- C2: in `Ball::update`, with the paddles at their fixed horizontal
positions, a right-paddle collision calls `bounce` (which produces a positive
x-speed) and then negates it, while a left-paddle collision calls `bounce`
without negation: the post-update x-speed is the negation of the bounce value
for a right-paddle collision and equals the bounce value for a left-paddle
collision.  `w` is the state just before the paddle-collision block. -/
theorem paddle_bounce_asymmetry (s : GameState) (elapsed : ℚ) (randVal : ℕ)
    (w : GameState)
    (hw : w = ballWallBounce (ballScoreRightBound (ballScoreLeftBound
        (ballMove s elapsed) randVal) randVal))
    (hLx : s.leftPlayer.coords.x = 10)
    (hLw : s.leftPlayer.coords.width = PLAYER_WIDTH)
    (hRx : s.rightPlayer.coords.x = SCREEN_WIDTH - PLAYER_WIDTH - 10)
    (hRw : s.rightPlayer.coords.width = PLAYER_WIDTH) :
    (w.rightPlayer.coords.intersects ⟨w.ball.x, w.ball.y, BALL_SIZE, BALL_SIZE⟩ = true →
       0 < (w.ball.bounce w.rightPlayer).1 ∧
       (ballUpdate s elapsed randVal).ball.xSpeed = -(w.ball.bounce w.rightPlayer).1) ∧
    (w.leftPlayer.coords.intersects ⟨w.ball.x, w.ball.y, BALL_SIZE, BALL_SIZE⟩ = true →
       (ballUpdate s elapsed randVal).ball.xSpeed = (w.ball.bounce w.leftPlayer).1) := by
  obtain ⟨hcl, hcr⟩ := pre_paddle_coords s elapsed randVal
  rw [← hw] at hcl hcr
  have hbu : ballUpdate s elapsed randVal = ballPaddles w := by
    rw [hw]; rfl
  constructor
  · intro hR
    refine ⟨(bounce_xSpeed_bounds w.ball w.rightPlayer).1, ?_⟩
    have hL' : ¬(w.leftPlayer.coords.intersects
        ⟨w.ball.x, w.ball.y, BALL_SIZE, BALL_SIZE⟩ = true) := by
      intro hL
      exact paddles_disjoint w.leftPlayer.coords w.rightPlayer.coords
        ⟨w.ball.x, w.ball.y, BALL_SIZE, BALL_SIZE⟩
        (hcl ▸ hLx) (hcl ▸ hLw) (hcr ▸ hRx) (hcr ▸ hRw) rfl hL hR
    rw [hbu]
    simp only [ballPaddles]
    rw [if_neg hL', if_pos hR]
  · intro hL
    have hR' : ¬(w.rightPlayer.coords.intersects
        ⟨w.ball.x, w.ball.y, BALL_SIZE, BALL_SIZE⟩ = true) := by
      intro hR
      exact paddles_disjoint w.leftPlayer.coords w.rightPlayer.coords
        ⟨w.ball.x, w.ball.y, BALL_SIZE, BALL_SIZE⟩
        (hcl ▸ hLx) (hcl ▸ hLw) (hcr ▸ hRx) (hcr ▸ hRw) rfl hL hR
    rw [hbu]
    simp only [ballPaddles]
    rw [if_pos hL]
    dsimp only
    rw [if_neg hR']

/-- Witness for C2: a ball overlapping the right paddle, and a ball overlapping
the left paddle, both with the players in their initial positions. -/
theorem paddle_bounce_asymmetry_witness :
    (0 < ((⟨⟨610, 220, 0, 0⟩, Player.init .left, Player.init .right⟩ :
          GameState).ball.bounce (Player.init .right)).1 ∧
     (ballUpdate ⟨⟨610, 220, 0, 0⟩, Player.init .left, Player.init .right⟩
        0 0).ball.xSpeed =
       -((⟨⟨610, 220, 0, 0⟩, Player.init .left, Player.init .right⟩ :
          GameState).ball.bounce (Player.init .right)).1) ∧
    ((ballUpdate ⟨⟨15, 220, 0, 0⟩, Player.init .left, Player.init .right⟩
        0 0).ball.xSpeed =
       ((⟨⟨15, 220, 0, 0⟩, Player.init .left, Player.init .right⟩ :
          GameState).ball.bounce (Player.init .left)).1) :=
  ⟨(paddle_bounce_asymmetry ⟨⟨610, 220, 0, 0⟩, Player.init .left, Player.init .right⟩ 0 0
      ⟨⟨610, 220, 0, 0⟩, Player.init .left, Player.init .right⟩
      (by norm_num [ballWallBounce, ballScoreRightBound, ballScoreLeftBound, ballMove,
        SCREEN_WIDTH, SCREEN_HEIGHT, BALL_SIZE])
      rfl rfl (by norm_num [Player.init, SCREEN_WIDTH, PLAYER_WIDTH]) rfl).1
      (by norm_num [Rect.intersects, Rect.contains, Rect.topLeft, Rect.topRight,
        Rect.bottomLeft, Rect.bottomRight, Player.init, SCREEN_WIDTH, SCREEN_HEIGHT,
        PLAYER_WIDTH, PLAYER_HEIGHT, BALL_SIZE]),
   (paddle_bounce_asymmetry ⟨⟨15, 220, 0, 0⟩, Player.init .left, Player.init .right⟩ 0 0
      ⟨⟨15, 220, 0, 0⟩, Player.init .left, Player.init .right⟩
      (by norm_num [ballWallBounce, ballScoreRightBound, ballScoreLeftBound, ballMove,
        SCREEN_WIDTH, SCREEN_HEIGHT, BALL_SIZE])
      rfl rfl (by norm_num [Player.init, SCREEN_WIDTH, PLAYER_WIDTH]) rfl).2
      (by norm_num [Rect.intersects, Rect.contains, Rect.topLeft, Rect.topRight,
        Rect.bottomLeft, Rect.bottomRight, Player.init, SCREEN_WIDTH, SCREEN_HEIGHT,
        PLAYER_WIDTH, PLAYER_HEIGHT, BALL_SIZE])⟩

/-- C10: `Rect::contains` uses strict inequalities, so a point on a
rectangle's boundary (its corner points included) is never contained;
consequently `Rect::intersects` is false for two rectangles that merely touch
along an edge or corner, and a ball rectangle that does not intersect either
paddle triggers no bounce in the paddle-collision block. -/
theorem strict_boundary_exclusion (r1 r2 : Rect) (p : Point) (s : GameState)
    (hw1 : 0 ≤ r1.width) (hh1 : 0 ≤ r1.height)
    (hw2 : 0 ≤ r2.width) (hh2 : 0 ≤ r2.height) :
    ((p.x = r1.x ∨ p.x = r1.x + r1.width ∨ p.y = r1.y ∨ p.y = r1.y + r1.height) →
       r1.contains p = false) ∧
    ((r2.x = r1.x + r1.width ∨ r1.x = r2.x + r2.width ∨
      r2.y = r1.y + r1.height ∨ r1.y = r2.y + r2.height) →
       r1.intersects r2 = false) ∧
    (s.leftPlayer.coords.intersects ⟨s.ball.x, s.ball.y, BALL_SIZE, BALL_SIZE⟩ = false →
     s.rightPlayer.coords.intersects ⟨s.ball.x, s.ball.y, BALL_SIZE, BALL_SIZE⟩ = false →
     ballPaddles s = s) := by
  refine ⟨?_, ?_, ?_⟩
  · intro hb
    rw [← Bool.not_eq_true, contains_eq_true_iff]
    intro hcont
    obtain ⟨hx1, hx2, hy1, hy2⟩ := hcont
    rcases hb with h | h | h | h <;> linarith
  · intro ht
    rw [← Bool.not_eq_true]
    intro hint
    have hx := intersects_x_overlap r1 r2 hw1 hw2 hint
    have hy := intersects_y_overlap r1 r2 hh1 hh2 hint
    rcases ht with h | h | h | h <;> linarith [hx.1, hx.2, hy.1, hy.2]
  · intro hL hR
    have hL' : ¬(s.leftPlayer.coords.intersects
        ⟨s.ball.x, s.ball.y, BALL_SIZE, BALL_SIZE⟩ = true) := by
      rw [hL]; exact Bool.false_ne_true
    have hR' : ¬(s.rightPlayer.coords.intersects
        ⟨s.ball.x, s.ball.y, BALL_SIZE, BALL_SIZE⟩ = true) := by
      rw [hR]; exact Bool.false_ne_true
    simp only [ballPaddles]
    rw [if_neg hL', if_neg hR']

/-- Witness for C10: a corner point of a unit square, a square touching it
edge-on, and a game state whose ball is away from both paddles. -/
theorem strict_boundary_exclusion_witness :
    (Rect.contains ⟨0, 0, 10, 10⟩ ⟨0, 5⟩ = false) ∧
    (Rect.intersects ⟨0, 0, 10, 10⟩ ⟨10, 0, 5, 5⟩ = false) ∧
    (ballPaddles ⟨⟨300, 200, 0, 0⟩, Player.init .left, Player.init .right⟩ =
      ⟨⟨300, 200, 0, 0⟩, Player.init .left, Player.init .right⟩) :=
  ⟨(strict_boundary_exclusion ⟨0, 0, 10, 10⟩ ⟨10, 0, 5, 5⟩ ⟨0, 5⟩
      ⟨⟨300, 200, 0, 0⟩, Player.init .left, Player.init .right⟩
      (by norm_num) (by norm_num) (by norm_num) (by norm_num)).1 (Or.inl rfl),
   (strict_boundary_exclusion ⟨0, 0, 10, 10⟩ ⟨10, 0, 5, 5⟩ ⟨0, 5⟩
      ⟨⟨300, 200, 0, 0⟩, Player.init .left, Player.init .right⟩
      (by norm_num) (by norm_num) (by norm_num) (by norm_num)).2.1
      (Or.inl (by norm_num)),
   (strict_boundary_exclusion ⟨0, 0, 10, 10⟩ ⟨10, 0, 5, 5⟩ ⟨0, 5⟩
      ⟨⟨300, 200, 0, 0⟩, Player.init .left, Player.init .right⟩
      (by norm_num) (by norm_num) (by norm_num) (by norm_num)).2.2
      (by norm_num [Rect.intersects, Rect.contains, Rect.topLeft, Rect.topRight,
        Rect.bottomLeft, Rect.bottomRight, Player.init, SCREEN_WIDTH, SCREEN_HEIGHT,
        PLAYER_WIDTH, PLAYER_HEIGHT, BALL_SIZE])
      (by norm_num [Rect.intersects, Rect.contains, Rect.topLeft, Rect.topRight,
        Rect.bottomLeft, Rect.bottomRight, Player.init, SCREEN_WIDTH, SCREEN_HEIGHT,
        PLAYER_WIDTH, PLAYER_HEIGHT, BALL_SIZE])⟩

end GLPong
